import Mathlib

/-!
Verification of the message-relay service in `telegram_beautifier.py`.

The embedding models the pure data flow of the Python source: strings are
`String` (with the correlator's character-level scanning done on `List Char`),
instants are `Nat`, the SQLite tables are Lean lists, and the three external
capabilities (Telegram send text / send photo / resolve file) are an explicit
oracle recording which calls succeed.  A Python exception that is caught is
modelled by the handler returning normally with the effects produced up to the
failure point; an uncaught exception is a `Bool` flag that propagates to the
webhook result.
-/

/-! ## Correlator character-level machinery

`handle_customer_service_reply` extracts the target user id with
`original_text.split('ID:')[1].split(')')[0].strip()`, guarded by
`'ID:' in original_text`.  We model Python `str.split` on a nonempty
separator by `splitFirst`, which returns the chunk before the first
occurrence of the separator together with the remainder after it (so
`split(sep)[0]` is the first component, and `split(sep)[1]` — when the
guard holds — is the first component of `splitFirst` applied to the
remainder). -/

/-- The delimiter token `"ID:"` as a character list. -/
def idTok : List Char := ['I', 'D', ':']

/-- The terminator token `")"` as a character list. -/
def closeTok : List Char := [')']

/-- If `tok` is a literal prefix of `s`, return the rest of `s` after it. -/
def matchTok : List Char → List Char → Option (List Char)
  | [], s => some s
  | _ :: _, [] => none
  | t :: ts, c :: cs => if c = t then matchTok ts cs else none

/-- Scan `s` left to right for the first occurrence of `tok`; return the
chunk before it and, if found, the remainder after it.  For a nonempty
separator this is Python's `s.split(tok)[0]` paired with the suffix after
the first separator occurrence. -/
def splitFirst (tok : List Char) : List Char → List Char × Option (List Char)
  | [] => ([], none)
  | c :: cs =>
    match matchTok tok (c :: cs) with
    | some rest => ([], some rest)
    | none =>
      let r := splitFirst tok cs
      (c :: r.1, r.2)

/-- Python's `tok in s` for a nonempty token `tok`. -/
def hasTok (tok : List Char) : List Char → Bool
  | [] => false
  | c :: cs => (matchTok tok (c :: cs)).isSome || hasTok tok cs

/-- Python `str.isspace()`, the exact set of code points `str.strip()`
removes: the ASCII whitespace U+0009-U+000D and U+0020, the information
separators U+001C-U+001F, NEL (U+0085), no-break space (U+00A0), Ogham
space mark (U+1680), the Unicode spaces U+2000-U+200A, the line and
paragraph separators U+2028/U+2029, narrow no-break space (U+202F),
medium mathematical space (U+205F), and ideographic space (U+3000). -/
def isWs (c : Char) : Bool :=
  (0x9 ≤ c.toNat && c.toNat ≤ 0xd) || (0x1c ≤ c.toNat && c.toNat ≤ 0x20) ||
  c.toNat = 0x85 || c.toNat = 0xa0 || c.toNat = 0x1680 ||
  (0x2000 ≤ c.toNat && c.toNat ≤ 0x200a) || c.toNat = 0x2028 ||
  c.toNat = 0x2029 || c.toNat = 0x202f || c.toNat = 0x205f || c.toNat = 0x3000

/-- Python `str.strip()` on a character list. -/
def trimChars (s : List Char) : List Char :=
  ((s.dropWhile isWs).reverse.dropWhile isWs).reverse

/-- The id extraction of `handle_customer_service_reply` (line 219/224):
`none` when `'ID:' not in original_text` (the guard that logs
"No user ID found in original message" and returns), otherwise
`original_text.split('ID:')[1].split(')')[0].strip()`.  `splitFirst`'s
second component is `some` exactly when the guard `'ID:' in s` holds, and
`split('ID:')[1]` is the chunk of the remainder before the next `'ID:'`. -/
def extract_target_user_id (s : List Char) : Option (List Char) :=
  match (splitFirst idTok s).2 with
  | none => none
  | some rest =>
    some (trimChars ((splitFirst closeTok ((splitFirst idTok rest).1)).1))

/-- String-level wrapper for the id extraction. -/
def extract_id_str (s : String) : Option String :=
  (extract_target_user_id s.data).map fun l => String.mk l

/-! ## Data model

`Message` and `UserAutoReply` rows, the process configuration, and the
external-capability oracle.  The store (`db.session.add` + `commit`) is
modelled as always succeeding; the modelled failure points are the three
outbound Telegram calls, each of which in the source logs and re-raises on
failure. -/

/-- A `Message` row (sender_id, sender_name, text, timestamp, media_type,
media_url).  Timestamps are abstract instants (`Nat`). -/
structure Msg where
  sender_id : String
  sender_name : String
  text : String
  timestamp : Nat
  media_type : Option String
  media_url : Option String
deriving DecidableEq, Repr

/-- The database: the append-only `Message` log and the `UserAutoReply`
table (one `(user_id, last_auto_reply)` row per user, keys unique). -/
structure DB where
  messages : List Msg
  auto_replies : List (String × Option Nat)
deriving DecidableEq, Repr

/-- Process configuration loaded from `config.json`. `cooldown` stands for
the duration `timedelta(hours=COOLDOWN_HOURS)`. -/
structure Config where
  bot_token : String
  secure_token : String
  forward_to_id : String
  welcome_message : String
  cooldown : Nat
deriving Repr

/-- Which external Telegram calls succeed: `sendTextOk chat text` /
`sendPhotoOk chat file caption` tell whether the corresponding HTTP call
succeeds (on `false` the Python wrapper logs and raises); `getFile file`
returns the `file_path` of a successful `getFile` call, or `none` if it
raises.  Numeric chat ids are passed by their decimal rendering. -/
structure Oracle where
  sendTextOk : String → String → Bool
  sendPhotoOk : String → String → String → Bool
  getFile : String → Option String

/-- One attempted `sendMessage` call: target chat, body, and whether the
call succeeded. -/
structure Send where
  target : String
  body : String
  ok : Bool
deriving DecidableEq, Repr

/-- One attempted `sendPhoto` call. -/
structure PhotoSend where
  target : String
  file_id : String
  caption : String
  ok : Bool
deriving DecidableEq, Repr

/-- One `new_message` event broadcast to all dashboard sessions. -/
structure BCast where
  sender_id : String
  sender_name : String
  text : String
deriving DecidableEq, Repr

/-- The observable side effects of handling one event: Telegram send
attempts, dashboard broadcasts, `logging.error` lines, and `error` events
emitted only to the originating socket session. -/
structure Effects where
  sends : List Send
  photoSends : List PhotoSend
  bcasts : List BCast
  errLogs : List String
  sessionErrs : List String
deriving DecidableEq, Repr

/-- No side effects. -/
def Effects.empty : Effects := ⟨[], [], [], [], []⟩

/-- Effects of two successive actions. -/
def Effects.app (a b : Effects) : Effects :=
  ⟨a.sends ++ b.sends, a.photoSends ++ b.photoSends,
    a.bcasts ++ b.bcasts, a.errLogs ++ b.errLogs,
    a.sessionErrs ++ b.sessionErrs⟩

instance : Append Effects := ⟨Effects.app⟩

/-- Append a stored message to the log (`db.session.add` + `commit`). -/
def DB.addMsg (db : DB) (m : Msg) : DB := ⟨db.messages ++ [m], db.auto_replies⟩

/-! ## Auto-reply gate -/

/-- `UserAutoReply.query.filter_by(user_id=user_id).first()`: the first row
whose key matches, as the row's `last_auto_reply` field. -/
def get_auto_reply_record : List (String × Option Nat) → String → Option (Option Nat)
  | [], _ => none
  | p :: ps, uid => if p.1 = uid then some p.2 else get_auto_reply_record ps uid

/-- `should_send_auto_reply` (source lines 67-80): true if the user has no
row, or the row's `last_auto_reply` is NULL, or `now` is strictly past
`last_auto_reply + timedelta(hours=COOLDOWN_HOURS)`. -/
def should_send_auto_reply (cooldown : Nat) (recs : List (String × Option Nat))
    (uid : String) (now : Nat) : Bool :=
  match get_auto_reply_record recs uid with
  | none => true
  | some none => true
  | some (some last) => decide (now > last + cooldown)

/-- `update_auto_reply_record` (source lines 82-91): upsert the row for
`uid`, setting `last_auto_reply` to the current instant. -/
def update_auto_reply_record (recs : List (String × Option Nat))
    (uid : String) (t : Nat) : List (String × Option Nat) :=
  match recs with
  | [] => [(uid, some t)]
  | p :: ps =>
    if p.1 = uid then (uid, some t) :: ps
    else p :: update_auto_reply_record ps uid t

/-! ## Inbound events and handlers -/

/-- The body of an inbound Telegram message: `'text' in message`,
`'photo' in message` (with `message['photo'][-1]['file_id']` and
`message.get('caption', '')`), or neither. -/
inductive EventBody
  | text (t : String)
  | photo (file_id : String) (caption : String)
  | other
deriving DecidableEq, Repr

/-- The quoted message of an operator reply (`reply_to_message`): its
optional `caption` and `text` fields. -/
structure QuotedMsg where
  caption : Option String
  text : Option String
deriving DecidableEq, Repr

/-- One inbound webhook `message` object: numeric chat id, optional
`chat['first_name']`, `chat['type']`, optional `reply_to_message`, body. -/
structure TgMsg where
  chat_id : Nat
  first_name : Option String
  chat_type : String
  reply_to : Option QuotedMsg
  body : EventBody
deriving DecidableEq, Repr

/-- `reply_to_message.get('caption', '') or reply_to_message.get('text', '')`:
the caption if present and nonempty, else the text (or `""`). -/
def original_text (q : QuotedMsg) : String :=
  if q.caption.getD "" ≠ "" then q.caption.getD "" else q.text.getD ""

/-- The forwarded-to-operator text template of `handle_text_message`
(line 296), parameterized by the id string. -/
def forwardTextS (name uid text : String) : String :=
  "用户 " ++ name ++ " (ID: " ++ uid ++ ") 发来消息:\n" ++ text

/-- The forwarded-to-operator photo caption template of
`handle_photo_message` (line 313), parameterized by the id string. -/
def forwardCaptionS (name uid caption : String) : String :=
  "用户 " ++ name ++ " (ID: " ++ uid ++ ") 发来图片: " ++ caption

/-- `f"用户 {sender_name} (ID: {chat_id}) 发来消息:\n{text}"`. -/
def forward_text (name : String) (chat_id : Nat) (text : String) : String :=
  forwardTextS name (Nat.repr chat_id) text

/-- `f"用户 {sender_name} (ID: {chat_id}) 发来图片: {caption}"`. -/
def forward_caption (name : String) (chat_id : Nat) (caption : String) : String :=
  forwardCaptionS name (Nat.repr chat_id) caption

/-- `f"https://api.telegram.org/file/bot{BOT_TOKEN}/{file_info['file_path']}"`. -/
def file_url_of (cfg : Config) (path : String) : String :=
  "https://api.telegram.org/file/bot" ++ cfg.bot_token ++ "/" ++ path

/-- `handle_text_message` (lines 285-304): store the user's message, then
forward it to the operator, then broadcast.  It has no try/except: a
failing forward send raises out of the handler (third component `true`),
skipping the broadcast. -/
def handle_text_message (cfg : Config) (o : Oracle) (db : DB) (now : Nat)
    (chat_id : Nat) (sender_name text : String) : DB × Effects × Bool :=
  let db' := db.addMsg ⟨Nat.repr chat_id, sender_name, text, now, none, none⟩
  let fwd := forward_text sender_name chat_id text
  if o.sendTextOk cfg.forward_to_id fwd then
    (db', ⟨[⟨cfg.forward_to_id, fwd, true⟩], [],
      [⟨Nat.repr chat_id, sender_name, text⟩], [], []⟩, false)
  else
    (db', ⟨[⟨cfg.forward_to_id, fwd, false⟩], [],
      [], ["Error sending message to Telegram"], []⟩, true)

/-- `handle_auto_reply` (lines 93-120): skip the operator's own id, consult
the gate, and on fire send the welcome, record the fire, store and
broadcast the Bot message; the whole action is inside try/except, so a
failing welcome send only logs. -/
def handle_auto_reply (cfg : Config) (o : Oracle) (db : DB) (now : Nat)
    (chat_id : Nat) : DB × Effects :=
  if Nat.repr chat_id ≠ cfg.forward_to_id ∧
      should_send_auto_reply cfg.cooldown db.auto_replies (Nat.repr chat_id) now = true then
    if o.sendTextOk (Nat.repr chat_id) cfg.welcome_message then
      let db' : DB := ⟨db.messages ++ [⟨cfg.bot_token, "Bot", cfg.welcome_message, now, none, none⟩],
        update_auto_reply_record db.auto_replies (Nat.repr chat_id) now⟩
      (db', ⟨[⟨Nat.repr chat_id, cfg.welcome_message, true⟩], [],
        [⟨cfg.bot_token, "Bot", cfg.welcome_message⟩], [], []⟩)
    else
      (db, ⟨[⟨Nat.repr chat_id, cfg.welcome_message, false⟩], [],
        [], ["Error sending auto-reply"], []⟩)
  else (db, Effects.empty)

/-- `handle_photo_message` (lines 306-338): resolve the file, forward the
photo to the operator, store and broadcast; all inside try/except, so a
failing `getFile` or `sendPhoto` only logs. -/
def handle_photo_message (cfg : Config) (o : Oracle) (db : DB) (now : Nat)
    (chat_id : Nat) (sender_name file_id caption : String) : DB × Effects :=
  match o.getFile file_id with
  | none =>
    (db, ⟨[], [], [], ["Error getting file info", "Error handling photo message"], []⟩)
  | some path =>
    let url := file_url_of cfg path
    let fcap := forward_caption sender_name chat_id caption
    if o.sendPhotoOk cfg.forward_to_id file_id fcap then
      (db.addMsg ⟨Nat.repr chat_id, sender_name, "[图片] " ++ url ++ " " ++ caption,
          now, some "photo", some url⟩,
        ⟨[], [⟨cfg.forward_to_id, file_id, fcap, true⟩],
          [⟨Nat.repr chat_id, sender_name, "[图片] " ++ url ++ " " ++ caption⟩], [], []⟩)
    else
      (db, ⟨[], [⟨cfg.forward_to_id, file_id, fcap, false⟩],
        [], ["Error sending photo to Telegram", "Error handling photo message"], []⟩)

/-- `handle_customer_service_reply` (lines 209-283): correlate the quoted
message back to a user id and relay the operator's photo or text to that
user, storing and broadcasting the relayed message; the relay block is
inside try/except, so any failure only logs. -/
def handle_customer_service_reply (cfg : Config) (o : Oracle) (db : DB)
    (now : Nat) (m : TgMsg) : DB × Effects :=
  match m.reply_to with
  | none => (db, ⟨[], [], [], ["No reply_to_message found"], []⟩)
  | some q =>
    match extract_id_str (original_text q) with
    | none => (db, ⟨[], [], [], ["No user ID found in original message"], []⟩)
    | some target =>
      match m.body with
      | .photo fid cap =>
        match o.getFile fid with
        | none =>
          (db, ⟨[], [], [],
            ["Error getting file info", "Error handling customer service reply"], []⟩)
        | some path =>
          let url := file_url_of cfg path
          if o.sendPhotoOk target fid cap then
            (db.addMsg ⟨cfg.forward_to_id, "You", "[图片] " ++ url ++ " " ++ cap,
                now, some "photo", some url⟩,
              ⟨[], [⟨target, fid, cap, true⟩],
                [⟨cfg.forward_to_id, "You", "[图片] " ++ url ++ " " ++ cap⟩], [], []⟩)
          else
            (db, ⟨[], [⟨target, fid, cap, false⟩], [],
              ["Error sending photo to Telegram", "Error handling customer service reply"], []⟩)
      | .text t =>
        if o.sendTextOk target t then
          (db.addMsg ⟨cfg.forward_to_id, "You", t, now, none, none⟩,
            ⟨[⟨target, t, true⟩], [], [⟨cfg.forward_to_id, "You", t⟩], [], []⟩)
        else
          (db, ⟨[⟨target, t, false⟩], [], [],
            ["Error sending message to Telegram", "Error handling customer service reply"], []⟩)
      | .other => (db, Effects.empty)

/-- `telegram_webhook` (lines 132-162).  The result's third component is
`true` when the endpoint returns its `{"status": "ok"}` acknowledgement
and `false` when an exception escapes the handler (Flask then returns an
error response instead of the acknowledgement). -/
def telegram_webhook (cfg : Config) (o : Oracle) (db : DB) (now : Nat)
    (ev : Option TgMsg) : DB × Effects × Bool :=
  match ev with
  | none => (db, Effects.empty, true)
  | some m =>
    if Nat.repr m.chat_id = cfg.forward_to_id ∧ m.reply_to.isSome then
      let r := handle_customer_service_reply cfg o db now m
      (r.1, r.2, true)
    else if m.chat_type = "private" then
      match m.body with
      | .text t =>
        let r := handle_text_message cfg o db now m.chat_id (m.first_name.getD "Unknown") t
        if r.2.2 then (r.1, r.2.1, false)
        else
          let r2 := handle_auto_reply cfg o r.1 now m.chat_id
          (r2.1, r.2.1 ++ r2.2, true)
      | .photo fid cap =>
        let r := handle_photo_message cfg o db now m.chat_id (m.first_name.getD "Unknown") fid cap
        let r2 := handle_auto_reply cfg o r.1 now m.chat_id
        (r2.1, r.2 ++ r2.2, true)
      | .other => (db, Effects.empty, true)
    else (db, Effects.empty, true)

/-! ## Dashboard socket handler and dashboard page query -/

/-- The `send_message` socket payload `{secure_token, sender_id, text}`,
each field optional (`data.get`). -/
structure SendPayload where
  secure_token : Option String
  sender_id : Option String
  text : Option String
deriving DecidableEq, Repr

/-- `handle_send_message` (lines 164-207): reject a wrong shared secret or
missing fields with an `error` event to the originating session only;
otherwise send to Telegram, store and broadcast, emitting only a session
error if the send fails. -/
def handle_send_message (cfg : Config) (o : Oracle) (db : DB) (now : Nat)
    (p : SendPayload) : DB × Effects :=
  if p.secure_token ≠ some cfg.secure_token then
    (db, ⟨[], [], [], ["Invalid secure token received"], ["Invalid secure_token"]⟩)
  else
    let chat_id := p.sender_id.getD ""
    let text := p.text.getD ""
    if chat_id = "" ∨ text = "" then
      (db, ⟨[], [], [], ["Invalid data received for sending message"], ["Missing required fields"]⟩)
    else if o.sendTextOk chat_id text then
      (db.addMsg ⟨chat_id, "You", text, now, none, none⟩,
        ⟨[⟨chat_id, text, true⟩], [], [⟨chat_id, "You", text⟩], [], []⟩)
    else
      (db, ⟨[⟨chat_id, text, false⟩], [], [],
        ["Error sending message to Telegram", "Error sending message"], ["Failed to send message"]⟩)

/-- Descending insertion of one message by timestamp. -/
def insertDesc (m : Msg) : List Msg → List Msg
  | [] => [m]
  | x :: xs => if x.timestamp ≤ m.timestamp then m :: x :: xs else x :: insertDesc m xs

/-- `Message.query.order_by(Message.timestamp.desc())`: the log sorted by
timestamp, newest first. -/
def sortDesc (msgs : List Msg) : List Msg := msgs.foldr insertDesc []

/-- The recent-message window: `order_by(timestamp.desc()).limit(k).all()`
followed by `messages.reverse()`. -/
def recent_messages (msgs : List Msg) (k : Nat) : List Msg :=
  ((sortDesc msgs).take k).reverse

/-- The dashboard page query of `home` (lines 128-129), limit 5000. -/
def home_messages (msgs : List Msg) : List Msg := recent_messages msgs 5000

/-! ## Correlator lemmas -/

/-- `matchTok` succeeds exactly on a literal prefix. -/
theorem matchTok_some_iff (tok : List Char) : ∀ (s r : List Char),
    matchTok tok s = some r ↔ s = tok ++ r := by
  induction tok with
  | nil => intro s r; simp [matchTok]
  | cons t ts ih =>
    intro s r
    cases s with
    | nil => simp [matchTok]
    | cons c cs =>
      by_cases h : c = t
      · subst h
        simp [matchTok, ih]
      · simp [matchTok, h]

/-- Inversion for a successful match of the `"ID:"` token. -/
theorem matchTok_idTok_inv {s r : List Char} (h : matchTok idTok s = some r) :
    s = 'I' :: 'D' :: ':' :: r := by
  have := (matchTok_some_iff idTok s r).1 h
  simpa [idTok] using this

/-- A token absent from `c :: cs` neither matches at the head nor occurs in
the tail. -/
theorem hasTok_cons_elim {tok : List Char} {c : Char} {cs : List Char}
    (h : hasTok tok (c :: cs) = false) :
    matchTok tok (c :: cs) = none ∧ hasTok tok cs = false := by
  rw [hasTok] at h
  cases hm : matchTok tok (c :: cs) with
  | some r => rw [hm] at h; simp at h
  | none => rw [hm] at h; simp at h; exact ⟨rfl, h⟩

/-- Splitting on a token that does not occur returns the whole string. -/
theorem splitFirst_of_not_hasTok (tok : List Char) :
    ∀ s : List Char, hasTok tok s = false → splitFirst tok s = (s, none) := by
  intro s
  induction s with
  | nil => intro _; rfl
  | cons c cs ih =>
    intro h
    obtain ⟨h1, h2⟩ := hasTok_cons_elim h
    simp [splitFirst, h1, ih h2]

/-- A head character other than `'I'` cannot start an `"ID:"` occurrence. -/
theorem hasTok_idTok_cons_ne {c : Char} (w : List Char) (h : c ≠ 'I') :
    hasTok idTok (c :: w) = hasTok idTok w := by
  simp [hasTok, idTok, matchTok, h]

/-- A head character other than `')'` cannot start a `")"` occurrence. -/
theorem hasTok_closeTok_cons_ne {c : Char} (w : List Char) (h : c ≠ ')') :
    hasTok closeTok (c :: w) = hasTok closeTok w := by
  simp [hasTok, closeTok, matchTok, h]

/-- The fixed prefix `"用户 "` of the forwarded templates contains no
character that could start an `"ID:"` occurrence. -/
theorem hasTok_idTok_head_chunk (w : List Char) :
    hasTok idTok (['用', '户', ' '] ++ w) = hasTok idTok w := by
  rw [List.cons_append, List.cons_append, List.cons_append, List.nil_append]
  rw [hasTok_idTok_cons_ne _ (by decide), hasTok_idTok_cons_ne _ (by decide),
    hasTok_idTok_cons_ne _ (by decide)]

/-- Appending the template's `" ("` cannot create an `"ID:"` occurrence. -/
theorem hasTok_idTok_append_pc : ∀ n : List Char, hasTok idTok n = false →
    hasTok idTok (n ++ [' ', '(']) = false := by
  intro n
  induction n with
  | nil => intro _; decide
  | cons c n' ih =>
    intro h
    obtain ⟨_, h2⟩ := hasTok_cons_elim h
    rw [List.cons_append, hasTok]
    cases hm : matchTok idTok (c :: (n' ++ [' ', '('])) with
    | some x =>
      exfalso
      have he := matchTok_idTok_inv hm
      cases n' with
      | nil =>
        rw [List.nil_append] at he
        have : (' ' : Char) = 'D' := by
          have := List.cons.inj he
          exact (List.cons.inj this.2).1
        exact absurd this (by decide)
      | cons d n'' =>
        cases n'' with
        | nil =>
          rw [List.cons_append, List.nil_append] at he
          have h1 := List.cons.inj he
          have h2' := List.cons.inj h1.2
          have h3' := List.cons.inj h2'.2
          exact absurd h3'.1 (by decide)
        | cons e n''' =>
          rw [List.cons_append, List.cons_append] at he
          have h1 := List.cons.inj he
          have h2' := List.cons.inj h1.2
          have h3' := List.cons.inj h2'.2
          rw [h1.1, h2'.1, h3'.1] at h
          simp [hasTok, matchTok, idTok] at h
    | none =>
      simp [ih h2]

/-- The first `"ID:"` occurrence in `p ++ "ID:" ++ r` with `"ID:"` absent
from `p` is the explicit one: no occurrence can straddle the boundary
because no proper suffix of `p` extended by `'I'` or `"ID"` spells
`"ID:"`. -/
theorem splitFirst_marker : ∀ (p r : List Char), hasTok idTok p = false →
    splitFirst idTok (p ++ (idTok ++ r)) = (p, some r) := by
  intro p
  induction p with
  | nil =>
    intro r _
    rw [List.nil_append]
    simp [idTok, splitFirst, matchTok]
  | cons c p' ih =>
    intro r h
    obtain ⟨_, h2⟩ := hasTok_cons_elim h
    rw [List.cons_append]
    cases hm : matchTok idTok (c :: (p' ++ (idTok ++ r))) with
    | some x =>
      exfalso
      have he := matchTok_idTok_inv hm
      cases p' with
      | nil =>
        rw [List.nil_append, idTok] at he
        have h1 := List.cons.inj he
        have h2' := List.cons.inj h1.2
        exact absurd h2'.1 (by decide)
      | cons d p'' =>
        cases p'' with
        | nil =>
          rw [List.cons_append, List.nil_append, idTok] at he
          have h1 := List.cons.inj he
          have h2' := List.cons.inj h1.2
          have h3' := List.cons.inj h2'.2
          exact absurd h3'.1 (by decide)
        | cons e p''' =>
          rw [List.cons_append, List.cons_append] at he
          have h1 := List.cons.inj he
          have h2' := List.cons.inj h1.2
          have h3' := List.cons.inj h2'.2
          rw [h1.1, h2'.1, h3'.1] at h
          simp [hasTok, matchTok, idTok] at h
    | none =>
      simp only [splitFirst, hm]
      rw [ih r h2]

/-- A failed single-character match means the head differs. -/
theorem matchTok_single_none {a c : Char} {w : List Char}
    (h : matchTok [a] (c :: w) = none) : c ≠ a := by
  intro hc
  subst hc
  simp [matchTok] at h

/-- Taking the chunk after the marker up to the next `"ID:"` and then up to
the first `')'` returns everything before the explicit `')'`, provided that
segment contains neither token. -/
theorem chunk_before_paren : ∀ (p z : List Char), hasTok idTok p = false →
    hasTok closeTok p = false →
    (splitFirst closeTok ((splitFirst idTok (p ++ ')' :: z)).1)).1 = p := by
  intro p
  induction p with
  | nil =>
    intro z _ _
    rw [List.nil_append]
    simp [splitFirst, matchTok, idTok, closeTok]
  | cons c p' ih =>
    intro z h1 h2
    obtain ⟨h1a, h1b⟩ := hasTok_cons_elim h1
    obtain ⟨h2a, h2b⟩ := hasTok_cons_elim h2
    have h2a' : matchTok [')'] (c :: p') = none := h2a
    have hcp : c ≠ ')' := matchTok_single_none h2a'
    rw [List.cons_append]
    cases hm : matchTok idTok (c :: (p' ++ ')' :: z)) with
    | some x =>
      exfalso
      have he := matchTok_idTok_inv hm
      cases p' with
      | nil =>
        rw [List.nil_append] at he
        have ha := List.cons.inj he
        have hb := List.cons.inj ha.2
        exact absurd hb.1 (by decide)
      | cons d p'' =>
        cases p'' with
        | nil =>
          rw [List.cons_append, List.nil_append] at he
          have ha := List.cons.inj he
          have hb := List.cons.inj ha.2
          have hc := List.cons.inj hb.2
          exact absurd hc.1 (by decide)
        | cons e p''' =>
          rw [List.cons_append, List.cons_append] at he
          have ha := List.cons.inj he
          have hb := List.cons.inj ha.2
          have hc := List.cons.inj hb.2
          rw [ha.1, hb.1, hc.1] at h1
          simp [hasTok, matchTok, idTok] at h1
    | none =>
      simp only [splitFirst, hm]
      have hmc : matchTok closeTok (c :: (splitFirst idTok (p' ++ ')' :: z)).1) = none := by
        simp [closeTok, matchTok, hcp]
      simp only [splitFirst, hmc]
      rw [ih z h1b h2b]

/-- Stripping ignores a leading space. -/
theorem trimChars_cons_space (l : List Char) : trimChars (' ' :: l) = trimChars l := by
  have h : isWs ' ' = true := by decide
  simp [trimChars, List.dropWhile_cons, h]

/-- Core round trip: extracting from any text of the shape
`"用户 " ++ name ++ " (" ++ "ID:" ++ " " ++ uid ++ ")" ++ tail` recovers the
trimmed `uid`, provided `name` and `uid` contain no `"ID:"` and `uid`
contains no `')'`. -/
theorem extract_embed (name uid tail : List Char)
    (h1 : hasTok idTok name = false) (h2 : hasTok idTok uid = false)
    (h3 : hasTok closeTok uid = false) :
    extract_target_user_id
      (['用', '户', ' '] ++ name ++ [' ', '('] ++ idTok ++ (' ' :: uid) ++ (')' :: tail)) =
    some (trimChars uid) := by
  have hp : hasTok idTok ((['用', '户', ' '] ++ (name ++ [' ', '('])) : List Char) = false := by
    rw [hasTok_idTok_head_chunk]
    exact hasTok_idTok_append_pc name h1
  have hm := splitFirst_marker (['用', '户', ' '] ++ (name ++ [' ', '(']))
    ((' ' :: uid) ++ ')' :: tail) hp
  have hshape :
      (['用', '户', ' '] ++ name ++ [' ', '('] ++ idTok ++ (' ' :: uid) ++ (')' :: tail)) =
      ((['用', '户', ' '] ++ (name ++ [' ', '('])) ++ (idTok ++ ((' ' :: uid) ++ ')' :: tail))) := by
    simp [List.append_assoc]
  have hsp_id : hasTok idTok (' ' :: uid) = false := by
    rw [hasTok_idTok_cons_ne _ (by decide)]; exact h2
  have hsp_cl : hasTok closeTok (' ' :: uid) = false := by
    rw [hasTok_closeTok_cons_ne _ (by decide)]; exact h3
  have hch := chunk_before_paren (' ' :: uid) tail hsp_id hsp_cl
  rw [extract_target_user_id, hshape, hm]
  show some (trimChars ((splitFirst closeTok ((splitFirst idTok ((' ' :: uid) ++ ')' :: tail)).1)).1)) =
    some (trimChars uid)
  rw [List.cons_append] at hch
  rw [List.cons_append, hch, trimChars_cons_space]

/-- The characters of the text-forward template, decomposed around the
embedded `"(ID: <uid>)"` marker. -/
theorem forwardTextS_data (name uid text : String) :
    (forwardTextS name uid text).data =
    ['用', '户', ' '] ++ name.data ++ [' ', '('] ++ idTok ++ (' ' :: uid.data) ++
      (')' :: ([' ', '发', '来', '消', '息', ':', '\n'] ++ text.data)) := by
  simp [forwardTextS, String.data_append, idTok]

/-- The characters of the photo-forward template, decomposed around the
embedded `"(ID: <uid>)"` marker. -/
theorem forwardCaptionS_data (name uid caption : String) :
    (forwardCaptionS name uid caption).data =
    ['用', '户', ' '] ++ name.data ++ [' ', '('] ++ idTok ++ (' ' :: uid.data) ++
      (')' :: ([' ', '发', '来', '图', '片', ':', ' '] ++ caption.data)) := by
  simp [forwardCaptionS, String.data_append, idTok]

/-- String-level round trip through the text-forward template. -/
theorem extract_forward_text (name uid text : String)
    (h1 : hasTok idTok name.data = false) (h2 : hasTok idTok uid.data = false)
    (h3 : hasTok closeTok uid.data = false) :
    extract_id_str (forwardTextS name uid text) = some (String.mk (trimChars uid.data)) := by
  rw [extract_id_str, forwardTextS_data, extract_embed name.data uid.data _ h1 h2 h3]
  rfl

/-- String-level round trip through the photo-forward template. -/
theorem extract_forward_caption (name uid caption : String)
    (h1 : hasTok idTok name.data = false) (h2 : hasTok idTok uid.data = false)
    (h3 : hasTok closeTok uid.data = false) :
    extract_id_str (forwardCaptionS name uid caption) = some (String.mk (trimChars uid.data)) := by
  rw [extract_id_str, forwardCaptionS_data, extract_embed name.data uid.data _ h1 h2 h3]
  rfl

/-- The chunk before the first occurrence of any token contains no `')'`
when the whole string contains none. -/
theorem hasTok_closeTok_splitFirst (tok : List Char) : ∀ s : List Char,
    hasTok closeTok s = false → hasTok closeTok ((splitFirst tok s).1) = false := by
  intro s
  induction s with
  | nil => intro _; rfl
  | cons c cs ih =>
    intro h
    obtain ⟨h1, h2⟩ := hasTok_cons_elim h
    have h1' : matchTok [')'] (c :: cs) = none := h1
    have hc : c ≠ ')' := matchTok_single_none h1'
    cases hm : matchTok tok (c :: cs) with
    | some r => simp [splitFirst, hm, hasTok]
    | none =>
      simp only [splitFirst, hm]
      have hmc : matchTok closeTok (c :: (splitFirst tok cs).1) = none := by
        simp [closeTok, matchTok, hc]
      rw [hasTok, hmc]
      simp [ih h2]

/-- Helper: extraction when the marker is present and no `')'` follows it —
the result is the chunk up to the next `"ID:"` occurrence (or the end),
stripped. -/
theorem extract_no_close_general (s rest : List Char)
    (h1 : (splitFirst idTok s).2 = some rest)
    (h3 : hasTok closeTok rest = false) :
    extract_target_user_id s = some (trimChars ((splitFirst idTok rest).1)) := by
  rw [extract_target_user_id, h1]
  show some (trimChars ((splitFirst closeTok ((splitFirst idTok rest).1)).1)) =
    some (trimChars ((splitFirst idTok rest).1))
  rw [splitFirst_of_not_hasTok closeTok _ (hasTok_closeTok_splitFirst idTok rest h3)]

/-- Claim C1 (amended): for every id containing neither `"ID:"` nor `')'`
and already equal to its stripped form, and every sender display name not
containing `"ID:"`, embedding `"(ID: <id>)"` the way the orchestrator does
in both forwarded templates and then running the reply correlator extracts
exactly the id (in general the correlator returns the *stripped* substring,
so an id with edge whitespace comes back trimmed). -/
theorem correlator_roundtrip (name uid text caption : String)
    (hn : hasTok idTok name.data = false)
    (h2 : hasTok idTok uid.data = false)
    (h3 : hasTok closeTok uid.data = false)
    (h4 : trimChars uid.data = uid.data) :
    extract_id_str (forwardTextS name uid text) = some uid ∧
    extract_id_str (forwardCaptionS name uid caption) = some uid := by
  have hmk : String.mk (trimChars uid.data) = uid := by
    rw [h4]
  constructor
  · rw [extract_forward_text name uid text hn h2 h3, hmk]
  · rw [extract_forward_caption name uid caption hn h2 h3, hmk]

/-- Witness for `correlator_roundtrip` at `name = "Alice"`, `id = "12345"`. -/
theorem correlator_roundtrip_witness :
    extract_id_str (forwardTextS "Alice" "12345" "hi") = some "12345" ∧
    extract_id_str (forwardCaptionS "Alice" "12345" "pic") = some "12345" :=
  correlator_roundtrip "Alice" "12345" "hi" "pic"
    (by decide) (by decide) (by decide) (by decide)

/-- Claim C1 counterexample: the id `"12345 "` (trailing space) contains
neither `"ID:"` nor `')'`, yet the correlator recovers `"12345"`, not the
id itself — the claim as stated fails for ids with edge whitespace. -/
theorem correlator_roundtrip_cex :
    hasTok idTok "12345 ".data = false ∧ hasTok closeTok "12345 ".data = false ∧
    extract_id_str (forwardTextS "Alice" "12345 " "hi") ≠ some "12345 " ∧
    extract_id_str (forwardTextS "Alice" "12345 " "hi") = some "12345" :=
  ⟨by decide, by decide, by decide, by decide⟩

/-- Claim C10 (amended): an operator reply whose quoted text contains
`"ID:"` but no later `')'` does not fail correlation; the extracted target
is the remainder after the first `"ID:"` up to the next `"ID:"` occurrence
if any — the entire remainder when there is no further occurrence —
stripped, and a relay of the reply text to that identifier is attempted. -/
theorem correlator_no_terminator (cfg : Config) (o : Oracle) (db : DB) (now : Nat)
    (cid : Nat) (fn : Option String) (ct : String) (q : QuotedMsg) (t : String)
    (rest : List Char)
    (h1 : (splitFirst idTok (original_text q).data).2 = some rest)
    (h3 : hasTok closeTok rest = false) :
    extract_id_str (original_text q) =
      some (String.mk (trimChars ((splitFirst idTok rest).1))) ∧
    (handle_customer_service_reply cfg o db now ⟨cid, fn, ct, some q, .text t⟩).2.sends =
      [⟨String.mk (trimChars ((splitFirst idTok rest).1)), t,
        o.sendTextOk (String.mk (trimChars ((splitFirst idTok rest).1))) t⟩] ∧
    (hasTok idTok rest = false → (splitFirst idTok rest).1 = rest) := by
  have hex : extract_id_str (original_text q) =
      some (String.mk (trimChars ((splitFirst idTok rest).1))) := by
    rw [extract_id_str, extract_no_close_general (original_text q).data rest h1 h3]
    rfl
  refine ⟨hex, ?_, ?_⟩
  · rw [handle_customer_service_reply]
    show ((match extract_id_str (original_text q) with
      | none => (db, (⟨[], [], [], ["No user ID found in original message"], []⟩ : Effects))
      | some target =>
        if o.sendTextOk target t then
          (db.addMsg ⟨cfg.forward_to_id, "You", t, now, none, none⟩,
            (⟨[⟨target, t, true⟩], [], [⟨cfg.forward_to_id, "You", t⟩], [], []⟩ : Effects))
        else
          (db, (⟨[⟨target, t, false⟩], [], [],
            ["Error sending message to Telegram", "Error handling customer service reply"], []⟩ : Effects))) :
        DB × Effects).2.sends = _
    rw [hex]
    cases ho : o.sendTextOk (String.mk (trimChars ((splitFirst idTok rest).1))) t <;> simp [ho]
  · intro h
    rw [splitFirst_of_not_hasTok idTok rest h]

/-- Claim C10 counterexample: quoted text `"ID:aID:b"` contains `"ID:"`
and no `')'`; the entire remainder after the first `"ID:"` is `"aID:b"`,
but the code extracts only `"a"` (the chunk before the *second* `"ID:"`). -/
theorem correlator_no_terminator_cex :
    extract_id_str "ID:aID:b" = some "a" ∧ ("a" : String) ≠ "aID:b" :=
  ⟨by decide, by decide⟩

/-! ## Concrete fixtures for witnesses and counterexamples -/

/-- A concrete configuration: operator chat `"999"`. -/
def cfgA : Config := ⟨"BOT", "SECRET", "999", "WELCOME", 24⟩

/-- An oracle on which every external call succeeds. -/
def oracleOk : Oracle := ⟨fun _ _ => true, fun _ _ _ => true, fun _ => some "photos/p.jpg"⟩

/-- An oracle on which every `sendMessage` call fails. -/
def oracleFailText : Oracle := ⟨fun _ _ => false, fun _ _ _ => true, fun _ => some "photos/p.jpg"⟩

/-- The empty database. -/
def dbEmpty : DB := ⟨[], []⟩

/-- Witness for `correlator_no_terminator`: quoted text `"ID: 8 ID: 9"`,
whose remainder after the first marker does contain a second `"ID:"`. -/
theorem correlator_no_terminator_witness :
    extract_id_str (original_text ⟨none, some "ID: 8 ID: 9"⟩) =
      some (String.mk (trimChars ((splitFirst idTok " 8 ID: 9".data).1))) ∧
    (handle_customer_service_reply cfgA oracleOk dbEmpty 5
        ⟨999, some "Op", "private", some ⟨none, some "ID: 8 ID: 9"⟩, .text "yo"⟩).2.sends =
      [⟨String.mk (trimChars ((splitFirst idTok " 8 ID: 9".data).1)), "yo",
        oracleOk.sendTextOk (String.mk (trimChars ((splitFirst idTok " 8 ID: 9".data).1))) "yo"⟩] ∧
    (hasTok idTok " 8 ID: 9".data = false → (splitFirst idTok " 8 ID: 9".data).1 = " 8 ID: 9".data) :=
  correlator_no_terminator cfgA oracleOk dbEmpty 5 999 (some "Op") "private"
    ⟨none, some "ID: 8 ID: 9"⟩ "yo" " 8 ID: 9".data (by decide) (by decide)

/-- Claim C3: an operator reply whose quoted message lacks the `"ID:"`
token produces exactly one error log, no Telegram send of any kind, no
store write, no broadcast, and the webhook still acknowledges. -/
theorem reply_missing_marker_no_effects (cfg : Config) (o : Oracle) (db : DB)
    (now : Nat) (m : TgMsg) (q : QuotedMsg)
    (hop : Nat.repr m.chat_id = cfg.forward_to_id)
    (hq : m.reply_to = some q)
    (hid : hasTok idTok (original_text q).data = false) :
    telegram_webhook cfg o db now (some m) =
      (db, ⟨[], [], [], ["No user ID found in original message"], []⟩, true) := by
  have hex : extract_id_str (original_text q) = none := by
    rw [extract_id_str, extract_target_user_id,
      splitFirst_of_not_hasTok idTok _ hid]
    rfl
  obtain ⟨cid, fn, ct, rt, body⟩ := m
  simp only [TgMsg.chat_id] at hop
  simp only [TgMsg.reply_to] at hq
  subst hq
  simp [telegram_webhook, handle_customer_service_reply, hop, hex]

/-- Witness for `reply_missing_marker_no_effects`: quoted text `"hello"`. -/
theorem reply_missing_marker_no_effects_witness :
    telegram_webhook cfgA oracleOk dbEmpty 3
      (some ⟨999, some "Op", "private", some ⟨none, some "hello"⟩, .text "re"⟩) =
      (dbEmpty, ⟨[], [], [], ["No user ID found in original message"], []⟩, true) :=
  reply_missing_marker_no_effects cfgA oracleOk dbEmpty 3
    ⟨999, some "Op", "private", some ⟨none, some "hello"⟩, .text "re"⟩
    ⟨none, some "hello"⟩ (by decide) rfl (by decide)

/-- `++` on `Effects` unfolds to `Effects.app`. -/
theorem Effects.app_def (a b : Effects) : a ++ b = Effects.app a b := rfl

/-- Appending no effects is a no-op. -/
theorem Effects.app_empty (e : Effects) : e ++ Effects.empty = e := by
  rw [Effects.app_def]
  obtain ⟨s, p, b, l, se⟩ := e
  simp [Effects.app, Effects.empty]

/-- Looking up a user right after the upsert finds the new instant. -/
theorem get_auto_reply_record_update (recs : List (String × Option Nat))
    (uid : String) (t : Nat) :
    get_auto_reply_record (update_auto_reply_record recs uid t) uid = some (some t) := by
  induction recs with
  | nil => simp [update_auto_reply_record, get_auto_reply_record]
  | cons p ps ih =>
    by_cases h : p.1 = uid
    · simp [update_auto_reply_record, h, get_auto_reply_record]
    · simp [update_auto_reply_record, h, get_auto_reply_record, ih]

/-- Claim C4: the gate fires exactly when the user has no record, or the
record's instant is absent, or `now` is strictly past the instant plus the
cooldown; every never-seen user passes; and after `recordFired(U, t)` the
gate is closed at every instant before `t + cooldown` and open at every
instant after it. -/
theorem auto_reply_gate_correct (cooldown : Nat) (recs : List (String × Option Nat))
    (uid : String) (now t : Nat) :
    (should_send_auto_reply cooldown recs uid now = true ↔
      get_auto_reply_record recs uid = none ∨
      get_auto_reply_record recs uid = some none ∨
      ∃ last, get_auto_reply_record recs uid = some (some last) ∧ now > last + cooldown) ∧
    (get_auto_reply_record recs uid = none →
      should_send_auto_reply cooldown recs uid now = true) ∧
    (∀ now', now' < t + cooldown →
      should_send_auto_reply cooldown (update_auto_reply_record recs uid t) uid now' = false) ∧
    (∀ now', t + cooldown < now' →
      should_send_auto_reply cooldown (update_auto_reply_record recs uid t) uid now' = true) := by
  refine ⟨?_, ?_, ?_, ?_⟩
  · cases hr : get_auto_reply_record recs uid with
    | none => simp [should_send_auto_reply, hr]
    | some v =>
      cases v with
      | none => simp [should_send_auto_reply, hr]
      | some last =>
        simp [should_send_auto_reply, hr]
  · intro h
    simp [should_send_auto_reply, h]
  · intro now' h
    rw [should_send_auto_reply, get_auto_reply_record_update]
    simp
    omega
  · intro now' h
    rw [should_send_auto_reply, get_auto_reply_record_update]
    simp
    omega

/-- Witness for `auto_reply_gate_correct`: `recordFired` at 10 with
cooldown 24 closes the gate at 20 and opens it at 40. -/
theorem auto_reply_gate_correct_witness :
    should_send_auto_reply 24 [] "5" 0 = true ∧
    should_send_auto_reply 24 (update_auto_reply_record [] "5" 10) "5" 20 = false ∧
    should_send_auto_reply 24 (update_auto_reply_record [] "5" 10) "5" 40 = true := by
  have h := auto_reply_gate_correct 24 [] "5" 0 10
  exact ⟨h.2.1 rfl, h.2.2.1 20 (by decide), h.2.2.2 40 (by decide)⟩

/-- Claim C5: for any event whose sender chat id renders to the configured
operator identifier, the auto-reply step contributes nothing (no welcome
send, no record update, no store write, no broadcast) regardless of the
gate's cooldown state; in particular an operator private text that is not a
reply is handled exactly like a user text minus the auto-reply step. -/
theorem operator_never_welcomed (cfg : Config) (o : Oracle) (db : DB) (now : Nat)
    (cid : Nat) (hop : Nat.repr cid = cfg.forward_to_id) :
    (∀ db' : DB, handle_auto_reply cfg o db' now cid = (db', Effects.empty)) ∧
    (∀ (fn : Option String) (t : String),
      (telegram_webhook cfg o db now (some ⟨cid, fn, "private", none, .text t⟩)).2.1 =
      (handle_text_message cfg o db now cid (fn.getD "Unknown") t).2.1) := by
  have hgen : ∀ db' : DB, handle_auto_reply cfg o db' now cid = (db', Effects.empty) := by
    intro db'
    simp [handle_auto_reply, hop]
  refine ⟨hgen, ?_⟩
  intro fn t
  simp only [telegram_webhook]
  rw [if_neg (by simp)]
  rw [if_pos trivial]
  cases hr : (handle_text_message cfg o db now cid (fn.getD "Unknown") t).2.2 with
  | true => simp [hr]
  | false => simp [hr, hgen, Effects.app_empty]

/-- Witness for `operator_never_welcomed` at operator chat 999. -/
theorem operator_never_welcomed_witness :
    handle_auto_reply cfgA oracleOk dbEmpty 7 999 = (dbEmpty, Effects.empty) ∧
    (telegram_webhook cfgA oracleOk dbEmpty 7
        (some ⟨999, some "Op", "private", none, .text "hi"⟩)).2.1 =
      (handle_text_message cfgA oracleOk dbEmpty 7 999 "Op" "hi").2.1 := by
  have h := operator_never_welcomed cfgA oracleOk dbEmpty 7 999 (by decide)
  exact ⟨h.1 dbEmpty, h.2 (some "Op") "hi"⟩

/-- The user-text handler raises exactly when the forward send fails. -/
theorem handle_text_message_raised (cfg : Config) (o : Oracle) (db : DB)
    (now : Nat) (cid : Nat) (n t : String) :
    (handle_text_message cfg o db now cid n t).2.2 =
      !(o.sendTextOk cfg.forward_to_id (forward_text n cid t)) := by
  rw [handle_text_message]
  cases h : o.sendTextOk cfg.forward_to_id (forward_text n cid t) <;> simp [h]

/-- Claim C2 (amended): the webhook endpoint acknowledges every inbound
event *except* a private user text whose forward send to the operator
fails — that failure escapes `handle_text_message` (which, alone among the
branch handlers, has no try/except) and propagates out of the endpoint.
Failures in the operator-reply branch, the photo branch and the auto-reply
step are caught and logged, and those events are still acknowledged. -/
theorem webhook_ack_characterization (cfg : Config) (o : Oracle) (db : DB)
    (now : Nat) (m : TgMsg) :
    (telegram_webhook cfg o db now (some m)).2.2 = false ↔
      ¬(Nat.repr m.chat_id = cfg.forward_to_id ∧ m.reply_to.isSome = true) ∧
      m.chat_type = "private" ∧
      ∃ t, m.body = .text t ∧
        o.sendTextOk cfg.forward_to_id
          (forward_text (m.first_name.getD "Unknown") m.chat_id t) = false := by
  obtain ⟨cid, fn, ct, rt, body⟩ := m
  simp only [telegram_webhook]
  by_cases h1 : Nat.repr cid = cfg.forward_to_id ∧ rt.isSome = true
  · rw [if_pos h1]
    simp [h1]
  · rw [if_neg h1]
    by_cases h2 : ct = "private"
    · subst h2
      rw [if_pos rfl]
      cases body with
      | text t =>
        have hr := handle_text_message_raised cfg o db now cid (fn.getD "Unknown") t
        cases hs : o.sendTextOk cfg.forward_to_id (forward_text (fn.getD "Unknown") cid t) with
        | true =>
          rw [hs] at hr
          simp [hr, h1, hs]
        | false =>
          rw [hs] at hr
          simp [hr, h1, hs]
      | photo fid cap => simp [h1]
      | other => simp [h1]
    · rw [if_neg h2]
      simp [h1, h2]

/-- Claim C2 counterexample: a private text from user 7 whose forward send
to the operator fails makes the exception escape the webhook handler — the
endpoint does not return its success acknowledgement for this event. -/
theorem webhook_ack_cex :
    (telegram_webhook cfgA oracleFailText dbEmpty 4
      (some ⟨7, some "U", "private", none, .text "hi"⟩)).2.2 = false := by
  decide

/-- Claim C6 (amended): user "Alice" (id 111) sending the private text
"hi" stores `{sender_id "111", sender_name "Alice", text "hi"}`, the
operator channel receives exactly the (Chinese-template) text
`"用户 Alice (ID: 111) 发来消息:\nhi"`, and — Alice having no prior
auto-reply record — she receives the configured welcome and a second
Bot-authored message is appended. -/
theorem user_text_relay_end_to_end (cfg : Config) (o : Oracle) (db : DB) (now : Nat)
    (hfwd : cfg.forward_to_id ≠ "111")
    (hrec : get_auto_reply_record db.auto_replies "111" = none)
    (hs1 : o.sendTextOk cfg.forward_to_id (forward_text "Alice" 111 "hi") = true)
    (hs2 : o.sendTextOk "111" cfg.welcome_message = true) :
    forward_text "Alice" 111 "hi" = "用户 Alice (ID: 111) 发来消息:\nhi" ∧
    telegram_webhook cfg o db now (some ⟨111, some "Alice", "private", none, .text "hi"⟩) =
      (⟨db.messages ++ [⟨"111", "Alice", "hi", now, none, none⟩,
          ⟨cfg.bot_token, "Bot", cfg.welcome_message, now, none, none⟩],
        update_auto_reply_record db.auto_replies "111" now⟩,
       ⟨[⟨cfg.forward_to_id, forward_text "Alice" 111 "hi", true⟩,
         ⟨"111", cfg.welcome_message, true⟩], [],
        [⟨"111", "Alice", "hi"⟩, ⟨cfg.bot_token, "Bot", cfg.welcome_message⟩], [], []⟩,
       true) := by
  have hrepr : Nat.repr 111 = "111" := by decide
  have ht : handle_text_message cfg o db now 111 ((some "Alice").getD "Unknown") "hi" =
      (⟨db.messages ++ [⟨"111", "Alice", "hi", now, none, none⟩], db.auto_replies⟩,
       ⟨[⟨cfg.forward_to_id, forward_text "Alice" 111 "hi", true⟩], [],
        [⟨"111", "Alice", "hi"⟩], [], []⟩, false) := by
    simp only [handle_text_message, Option.getD_some, hrepr, DB.addMsg]
    rw [if_pos hs1]
  have hauto : handle_auto_reply cfg o
      (⟨db.messages ++ [⟨"111", "Alice", "hi", now, none, none⟩], db.auto_replies⟩ : DB) now 111 =
      (⟨(db.messages ++ [⟨"111", "Alice", "hi", now, none, none⟩]) ++
          [⟨cfg.bot_token, "Bot", cfg.welcome_message, now, none, none⟩],
        update_auto_reply_record db.auto_replies "111" now⟩,
       ⟨[⟨"111", cfg.welcome_message, true⟩], [],
        [⟨cfg.bot_token, "Bot", cfg.welcome_message⟩], [], []⟩) := by
    simp only [handle_auto_reply, hrepr]
    rw [if_pos ⟨Ne.symm hfwd, by simp [should_send_auto_reply, hrec]⟩]
    rw [if_pos hs2]
  refine ⟨by decide, ?_⟩
  simp only [telegram_webhook]
  rw [if_neg (by simp)]
  rw [if_pos trivial]
  simp only [ht]
  rw [if_neg (by simp)]
  simp only [hauto]
  simp [Effects.app_def, Effects.app, List.append_assoc]

/-- Claim C6 counterexample: with operator chat "999" and welcome
"WELCOME", the sends produced for Alice's "hi" are the Chinese-template
forward and the welcome; no send carries the English template text
`"User Alice (ID: 111) says:\nhi"` claimed by the specification. -/
theorem relay_template_cex :
    (telegram_webhook cfgA oracleOk dbEmpty 9
        (some ⟨111, some "Alice", "private", none, .text "hi"⟩)).2.1.sends =
      [⟨"999", "用户 Alice (ID: 111) 发来消息:\nhi", true⟩, ⟨"111", "WELCOME", true⟩] ∧
    ∀ s ∈ (telegram_webhook cfgA oracleOk dbEmpty 9
        (some ⟨111, some "Alice", "private", none, .text "hi"⟩)).2.1.sends,
      s.body ≠ "User Alice (ID: 111) says:\nhi" := by
  exact ⟨by decide, by decide⟩

/-- Witness for `user_text_relay_end_to_end` on the concrete fixture. -/
theorem user_text_relay_end_to_end_witness :
    forward_text "Alice" 111 "hi" = "用户 Alice (ID: 111) 发来消息:\nhi" ∧
    telegram_webhook cfgA oracleOk dbEmpty 9
        (some ⟨111, some "Alice", "private", none, .text "hi"⟩) =
      (⟨dbEmpty.messages ++ [⟨"111", "Alice", "hi", 9, none, none⟩,
          ⟨cfgA.bot_token, "Bot", cfgA.welcome_message, 9, none, none⟩],
        update_auto_reply_record dbEmpty.auto_replies "111" 9⟩,
       ⟨[⟨cfgA.forward_to_id, forward_text "Alice" 111 "hi", true⟩,
         ⟨"111", cfgA.welcome_message, true⟩], [],
        [⟨"111", "Alice", "hi"⟩, ⟨cfgA.bot_token, "Bot", cfgA.welcome_message⟩], [], []⟩,
       true) :=
  user_text_relay_end_to_end cfgA oracleOk dbEmpty 9
    (by decide) (by decide) (by decide) (by decide)

/-- Inserting a message older than everything in the list lands at the end. -/
theorem insertDesc_min (m : Msg) : ∀ l : List Msg,
    (∀ x ∈ l, m.timestamp < x.timestamp) → insertDesc m l = l ++ [m] := by
  intro l
  induction l with
  | nil => intro _; rfl
  | cons x xs ih =>
    intro h
    have hx : m.timestamp < x.timestamp := h x (List.mem_cons_self x xs)
    rw [insertDesc, if_neg (by omega)]
    rw [ih fun y hy => h y (List.mem_cons_of_mem x hy)]
    rfl

/-- With strictly increasing timestamps, sorting newest-first is exactly
reversal of insertion order. -/
theorem sortDesc_of_increasing : ∀ msgs : List Msg,
    msgs.Pairwise (fun a b => a.timestamp < b.timestamp) →
    sortDesc msgs = msgs.reverse := by
  intro msgs
  induction msgs with
  | nil => intro _; rfl
  | cons m t ih =>
    intro h
    rw [List.pairwise_cons] at h
    show insertDesc m (sortDesc t) = (m :: t).reverse
    rw [ih h.2, insertDesc_min m t.reverse fun x hx => h.1 x (List.mem_reverse.1 hx)]
    rw [List.reverse_cons]

/-- Claim C7: with timestamps strictly increasing in insertion order (the
store's assumed invariant), querying the window with limit `k < N` returns
exactly the `k` most recently appended messages, oldest first, and the
dashboard page uses the window capped at 5000. -/
theorem recent_messages_spec (msgs : List Msg) (k : Nat)
    (hmono : msgs.Pairwise (fun a b => a.timestamp < b.timestamp))
    (_hk : k < msgs.length) :
    recent_messages msgs k = msgs.drop (msgs.length - k) ∧
    home_messages msgs = recent_messages msgs 5000 := by
  refine ⟨?_, rfl⟩
  rw [recent_messages, sortDesc_of_increasing msgs hmono,
    ← List.rtake_eq_reverse_take_reverse]
  rfl

/-- Three-message log with increasing timestamps. -/
def msgsW : List Msg :=
  [⟨"1", "a", "x", 1, none, none⟩, ⟨"2", "b", "y", 2, none, none⟩,
   ⟨"3", "c", "z", 3, none, none⟩]

/-- Witness for `recent_messages_spec`: the last two of three messages. -/
theorem recent_messages_spec_witness :
    recent_messages msgsW 2 = msgsW.drop (msgsW.length - 2) ∧
    home_messages msgsW = recent_messages msgsW 5000 :=
  recent_messages_spec msgsW 2 (by decide) (by decide)

/-- Claim C8: a dashboard `send_message` whose `secure_token` does not
match the configured value yields only an `error` event to the originating
session — no broadcast, no store write, no Telegram send. -/
theorem dashboard_bad_secret_isolated (cfg : Config) (o : Oracle) (db : DB)
    (now : Nat) (p : SendPayload)
    (h : p.secure_token ≠ some cfg.secure_token) :
    handle_send_message cfg o db now p =
      (db, ⟨[], [], [], ["Invalid secure token received"], ["Invalid secure_token"]⟩) := by
  rw [handle_send_message, if_pos h]

/-- Witness for `dashboard_bad_secret_isolated`: wrong token `"WRONG"`. -/
theorem dashboard_bad_secret_isolated_witness :
    handle_send_message cfgA oracleOk dbEmpty 1 ⟨some "WRONG", some "5", some "x"⟩ =
      (dbEmpty, ⟨[], [], [], ["Invalid secure token received"], ["Invalid secure_token"]⟩) :=
  dashboard_bad_secret_isolated cfgA oracleOk dbEmpty 1
    ⟨some "WRONG", some "5", some "x"⟩ (by decide)

/-- Claim C9: a validated dashboard send whose Telegram call fails stores
nothing, broadcasts nothing, and emits only "Failed to send message" to
the originating session (the failed send attempt and its logs are the only
other traces). -/
theorem dashboard_send_failure_atomic (cfg : Config) (o : Oracle) (db : DB)
    (now : Nat) (p : SendPayload) (c t : String)
    (hsec : p.secure_token = some cfg.secure_token)
    (hc : p.sender_id = some c) (hc' : c ≠ "")
    (ht : p.text = some t) (ht' : t ≠ "")
    (hfail : o.sendTextOk c t = false) :
    handle_send_message cfg o db now p =
      (db, ⟨[⟨c, t, false⟩], [], [],
        ["Error sending message to Telegram", "Error sending message"],
        ["Failed to send message"]⟩) := by
  rw [handle_send_message, if_neg (by simp [hsec])]
  simp only [hc, ht, Option.getD_some]
  rw [if_neg (by simp [hc', ht'])]
  rw [if_neg (by simp [hfail])]

/-- Witness for `dashboard_send_failure_atomic`: valid payload, failing
send oracle. -/
theorem dashboard_send_failure_atomic_witness :
    handle_send_message cfgA oracleFailText dbEmpty 2 ⟨some "SECRET", some "5", some "x"⟩ =
      (dbEmpty, ⟨[⟨"5", "x", false⟩], [], [],
        ["Error sending message to Telegram", "Error sending message"],
        ["Failed to send message"]⟩) :=
  dashboard_send_failure_atomic cfgA oracleFailText dbEmpty 2
    ⟨some "SECRET", some "5", some "x"⟩ "5" "x"
    rfl rfl (by decide) rfl (by decide) (by decide)
